import Mathlib

/-!
Verification development for the igvm DRBD live-migration engine.

The Lean definitions below are a shallow embedding of the Python sources:

* `src/igvm/drbd.py` — the `DRBD` class (replication session start,
  metadata device, device-mapper shim, resource-file generation,
  device take-over, sync wait, tear-down) and `sync_block_size`;
* `src/igvm/commands.py` — `mem_set`, `disk_set`, `vm_start`;
* `src/igvm/balance/models.py` — `Hypervisor.get_disk_free`.

Remote side effects (`hv.run`, `hv.put`, VM suspend/resume) are modelled as
an explicit trace of `Event`s.  A failure oracle `Option Nat` makes the
n-th forward remote command raise, mirroring a Python exception at that
point.  Python exception propagation through the nested `contextmanager`
scopes of `DRBD.start` is encoded linearly: the interpreter state carries
a `failed` latch, a forward command is a no-op once the latch is set, and
the `except` clause of each scope appends its inverse commands at scope
exit, guarded by a flag recording that the scope had been entered (its
forward action had completed) — exactly the LIFO unwind of the source.
Environment responses (the device minor returned by `stat`, the device
size returned by `lvs`) are fields of the `HV` record; the source parses
them from strings (`int(x, 16)`, `int(x.strip())`), the model carries the
parsed numbers directly.
-/

set_option maxHeartbeats 1600000
set_option maxRecDepth 16000

namespace Igvm

/-- One remote action issued by the engine against a hypervisor. -/
inductive Act where
  | run (cmd : String)
  | runSilent (cmd : String)
  | runWarn (cmd : String)
  | put (path : String) (content : String) (mode : String)
  | suspendVM (vm : String)
  | resumeVM (vm : String)
deriving DecidableEq, Repr

/-- A remote action together with the hypervisor it is issued on. -/
structure Event where
  host : String
  act : Act
deriving DecidableEq, Repr

/-- The hypervisor-side environment of one DRBD endpoint: identity data
read from the inventory (`dataset_obj`), the responses the remote host
gives to the device queries, and the libvirt VM state queries. -/
structure HV where
  host : String
  ip : String
  minorEnv : Nat
  sizeEnv : Nat
  vmDefined : Bool
  vmRunning : Bool
deriving DecidableEq, Repr

/-- The VM data the DRBD constructor reads: `vm.fqdn`, `vm.uid_name` and
the backing logical-volume path `vm.hypervisor.get_volume_by_vm(vm).path()`. -/
structure VMd where
  fqdn : String
  uidName : String
  srcLvPath : String
deriving DecidableEq, Repr

/-- Python `str.split('/')` on a character list. -/
def splitOnSlash : List Char → List (List Char)
  | [] => [[]]
  | c :: rest =>
    match splitOnSlash rest with
    | [] => [[]]
    | h :: t => if c = '/' then [] :: h :: t else (c :: h) :: t

/-- State of one `DRBD` object after `__init__` (src/igvm/drbd.py:35-50). -/
structure DRBD where
  hv : HV
  masterRole : Bool
  vgName : String
  lvName : String
  vmName : String
  metaDisk : String
  tableFile : String
deriving DecidableEq, Repr

/-- `DRBD.__init__`: split the backing LV path on `/`; component 2 is the
volume group, component 3 the LV name (used only in the master role, the
secondary uses `vm.uid_name`).  Python indexing raises on a too-short
path; the model uses `getD` and the theorems only apply it to paths of
the canonical `/dev/vg/lv` form, where both agree. -/
def DRBD.init (hv : HV) (vm : VMd) (masterRole : Bool) : DRBD :=
  let parts := (splitOnSlash vm.srcLvPath.data).map (fun l => String.mk l)
  let vg := parts.getD 2 ""
  let lv := if masterRole then parts.getD 3 "" else vm.uidName
  { hv := hv
    masterRole := masterRole
    vgName := vg
    lvName := lv
    vmName := vm.fqdn
    metaDisk := vm.fqdn ++ "_meta"
    tableFile := "/tmp/" ++ vg ++ "_" ++ lv ++ "_table" }

/-- Command of `prepare_metadata_device`, step M1 (drbd.py:95-98). -/
def lvcreateCmd (d : DRBD) : String :=
  "lvcreate -y -n " ++ d.metaDisk ++ " -L256M " ++ d.vgName

/-- Command of `prepare_metadata_device`, step M2 (drbd.py:101-104). -/
def ddCmd (d : DRBD) : String :=
  "dd if=/dev/zero of=/dev/" ++ d.vgName ++ "/" ++ d.metaDisk ++
    " bs=1048576 count=256"

/-- Inverse of M1 (drbd.py:108-110), also used by `stop` (drbd.py:345). -/
def lvremoveCmd (d : DRBD) : String :=
  "lvremove -fy " ++ d.vgName ++ "/" ++ d.metaDisk

/-- Command of `prepare_lv_override`, step L1 (drbd.py:118-121). -/
def dumpCmd (d : DRBD) : String :=
  "dmsetup table /dev/" ++ d.vgName ++ "/" ++ d.lvName ++ " > " ++ d.tableFile

/-- Command of `prepare_lv_override`, step L2 (drbd.py:124-127). -/
def createShimCmd (d : DRBD) : String :=
  "dmsetup create " ++ d.lvName ++ "_orig < " ++ d.tableFile

/-- Inverse of L2 (drbd.py:131), also used by `stop` (drbd.py:343). -/
def removeShimCmd (d : DRBD) : String :=
  "dmsetup remove " ++ d.lvName ++ "_orig"

/-- Query of `get_device_minor` (drbd.py:54-58), run with `silent=True`. -/
def statCmd (d : DRBD) : String :=
  "stat -L -c \"%T\" /dev/" ++ d.vgName ++ "/" ++ d.lvName

/-- Query of `get_device_size` (drbd.py:67-72). -/
def lvsCmd (d : DRBD) : String :=
  "lvs --noheadings -o lv_size --units b --nosuffix " ++
    d.vgName ++ "/" ++ d.lvName

/-- Path of the DRBD resource file written by `build_config` (drbd.py:166). -/
def resPath (d : DRBD) : String :=
  "/etc/drbd.d/" ++ d.vmName ++ ".res"

/-- Inverse of the resource-file write (drbd.py:170), also `stop` (drbd.py:346). -/
def rmResCmd (d : DRBD) : String :=
  "rm /etc/drbd.d/" ++ d.vmName ++ ".res"

/-- Step T1 of `take_over_device` (drbd.py:200-202). -/
def suspendDmCmd (d : DRBD) : String :=
  "dmsetup suspend /dev/" ++ d.vgName ++ "/" ++ d.lvName

/-- First command of step T2 (drbd.py:205). -/
def createMdCmd (d : DRBD) : String :=
  "drbdadm create-md " ++ d.vmName

/-- Second command of step T2 (drbd.py:206). -/
def upCmd (d : DRBD) : String :=
  "drbdadm up " ++ d.vmName

/-- Step T3 in the master role (drbd.py:211-214). -/
def overwriteCmd (d : DRBD) : String :=
  "drbdadm -- --overwrite-data-of-peer primary " ++ d.vmName

/-- First command of step T3 in the secondary role (drbd.py:219-222). -/
def waitConnectCmd (d : DRBD) : String :=
  "drbdadm wait-connect " ++ d.vmName

/-- Second command of step T3 in the secondary role (drbd.py:225-228). -/
def primaryCmd (d : DRBD) : String :=
  "drbdadm -- primary " ++ d.vmName

/-- Step T4 (drbd.py:232-239): splice the DRBD device into the VM-visible
mapping.  Device-mapper blocks are always 512 bytes, hence the integer
division of the byte size obtained from `lvs`. -/
def loadDrbdCmd (d : DRBD) : String :=
  "dmsetup load /dev/" ++ d.vgName ++ "/" ++ d.lvName ++ " --table \"0 " ++
    toString (d.hv.sizeEnv / 512) ++ " linear /dev/drbd" ++
    toString d.hv.minorEnv ++ " 0\""

/-- Step T5 (drbd.py:242-245) and the rollback resume (drbd.py:259-262,
269-271), also used by `stop` (drbd.py:323-325). -/
def resumeCmd (d : DRBD) : String :=
  "dmsetup resume /dev/" ++ d.vgName ++ "/" ++ d.lvName

/-- Reload of the original table from the dump file, the inverse of T4
(drbd.py:255-258), also used by `stop` (drbd.py:319-322). -/
def loadOrigCmd (d : DRBD) : String :=
  "dmsetup load /dev/" ++ d.vgName ++ "/" ++ d.lvName ++ " < " ++ d.tableFile

/-- Inverse of T2 (drbd.py:268), also used by `stop` (drbd.py:334). -/
def downCmd (d : DRBD) : String :=
  "drbdadm down " ++ d.vmName

/-- Command of `wait_for_sync` issued after the progress loop (drbd.py:309). -/
def waitSyncCmd (minor : Nat) : String :=
  "drbdsetup wait-sync " ++ toString minor

/-- Per-host stanza produced by `get_host_config` (drbd.py:173-191).  The
port is `8000 + dev_minor` (`get_device_port`, drbd.py:62-64); the disk is
the `_orig` device-mapper shim. -/
def hostConfigStr (d : DRBD) : String :=
  "    on " ++ d.hv.host ++ " \x7b\n" ++
  "        address   " ++ d.hv.ip ++ ":" ++ toString (8000 + d.hv.minorEnv) ++ ";\n" ++
  "        device    /dev/drbd" ++ toString d.hv.minorEnv ++ ";\n" ++
  "        disk      /dev/mapper/" ++ d.lvName ++ "_orig;\n" ++
  "        meta-disk /dev/" ++ d.vgName ++ "/" ++ d.metaDisk ++ ";\n" ++
  "    \x7d"

/-- Exact file content uploaded by `build_config` (drbd.py:136-165),
including the two commented-out buffer-size lines that are part of the
Python string literal. -/
def configContent (d peer : DRBD) : String :=
  "resource " ++ d.vmName ++ " \x7b\n" ++
  "    net \x7b\n" ++
  "        protocol C;\n" ++
  "        max-buffers 24k;\n" ++
  "#        sndbuf-size 2048k;\n" ++
  "#        rcvbuf-size 2048k;\n" ++
  "        allow-two-primaries;\n" ++
  "    \x7d\n" ++
  "    disk \x7b\n" ++
  "         c-max-rate 750M;\n" ++
  "         resync-rate 750M;\n" ++
  "    \x7d\n" ++
  hostConfigStr d ++ "\n" ++
  hostConfigStr peer ++ "\n" ++
  "\x7d\n"

/-- Interpreter state: `count` numbers the forward remote commands issued
so far (the failure oracle is an index into that numbering), `trace` is
the list of completed events, and `failed` is the pending-exception
latch. -/
structure St where
  count : Nat
  trace : List Event
  failed : Bool
deriving DecidableEq, Repr

/-- Issue one forward remote command.  With a pending exception nothing
runs; if the failure oracle names the current index the command raises
(it is not recorded as completed), mirroring a `hv.run`/`hv.put`
exception in the source. -/
def step (fa : Option Nat) (e : Event) (s : St) : St :=
  if s.failed then s
  else if fa = some s.count then { s with count := s.count + 1, failed := true }
  else { s with count := s.count + 1, trace := s.trace ++ [e] }

/-- Record a rollback or tear-down command; the model lets these succeed
(the claims under audit only inject failures into forward steps). -/
def emit (e : Event) (s : St) : St :=
  { s with trace := s.trace ++ [e] }

/-- Exit of one scoped acquisition: if the scope had been entered
(`entered`, captured right after its forward action completed) and an
exception is pending, the source's `except` clause runs the inverse
commands and re-raises. -/
def rollback (inv : List Event) (entered : Bool) (s : St) : St :=
  if entered && s.failed then { s with trace := s.trace ++ inv } else s

/-- Event for a plain `self.hv.run(cmd)` of endpoint `d`. -/
def evR (d : DRBD) (c : String) : Event :=
  ⟨d.hv.host, Act.run c⟩

/-- The acquisition phase of `DRBD.start` (drbd.py:74-84): the nested
scopes `prepare_metadata_device` (drbd.py:90-111) and
`prepare_lv_override` (drbd.py:113-132), then `build_config`
(drbd.py:134-171) whose `.format` call evaluates `self.get_host_config()`
and `peer.get_host_config()` — the two uncached `stat` minor queries —
before the upload, and finally `take_over_device` (drbd.py:193-272) as
the body.  Each `metaLive`/`shimLive`/`resLive`/`upLive`/`loadDone` flag
records that the corresponding `try` had been entered, so that scope's
`except` inverse runs on the way out; `lvcreate` sits before the `try` of
`prepare_metadata_device`, so its own failure unwinds nothing. -/
def startAcquire (fa : Option Nat) (d peer : DRBD) (s0 : St) : St :=
  let s := step fa (evR d (lvcreateCmd d)) s0
  let metaLive := !s.failed
  let s := step fa (evR d (ddCmd d)) s
  let s := step fa (evR d (dumpCmd d)) s
  let s := step fa (evR d (createShimCmd d)) s
  let shimLive := !s.failed
  let s := step fa ⟨d.hv.host, Act.runSilent (statCmd d)⟩ s
  let s := step fa ⟨peer.hv.host, Act.runSilent (statCmd peer)⟩ s
  let s := step fa ⟨d.hv.host, Act.put (resPath d) (configContent d peer) "0640"⟩ s
  let resLive := !s.failed
  let s := step fa (evR d (lvsCmd d)) s
  let s := step fa (evR d (suspendDmCmd d)) s
  let upLive := !s.failed
  let s := step fa (evR d (createMdCmd d)) s
  let s := step fa (evR d (upCmd d)) s
  let s := if d.masterRole then step fa (evR d (overwriteCmd d)) s
           else step fa (evR d (primaryCmd d)) (step fa (evR d (waitConnectCmd d)) s)
  let s := step fa (evR d (loadDrbdCmd d)) s
  let loadDone := !s.failed
  let s := step fa (evR d (resumeCmd d)) s
  let s := rollback [evR d (loadOrigCmd d), evR d (resumeCmd d)] loadDone s
  let s := rollback [⟨d.hv.host, Act.runWarn (downCmd d)⟩, evR d (resumeCmd d)] upLive s
  let s := rollback [evR d (rmResCmd d)] resLive s
  let s := rollback [evR d (removeShimCmd d)] shimLive s
  rollback [evR d (lvremoveCmd d)] metaLive s

/-- `DRBD.stop` (drbd.py:311-346).  The suspend/resume condition is
evaluated twice in the source; in the pure model both evaluations agree,
so it is bound once. -/
def stopRun (d : DRBD) (s : St) : St :=
  let cond := !d.masterRole && d.hv.vmDefined && d.hv.vmRunning
  let s := if cond then emit ⟨d.hv.host, Act.suspendVM d.vmName⟩ s else s
  let s := emit (evR d (loadOrigCmd d)) s
  let s := emit (evR d (resumeCmd d)) s
  let s := emit (evR d (downCmd d)) s
  let s := if cond then emit ⟨d.hv.host, Act.resumeVM d.vmName⟩ s else s
  let s := emit (evR d (removeShimCmd d)) s
  let s := emit (evR d (lvremoveCmd d)) s
  emit (evR d (rmResCmd d)) s

/-- The whole `with drbd.start(peer):` scope (drbd.py:74-88): if the
acquisition succeeds, `stop()` runs in the `finally` on every exit, and a
body exception still propagates (the returned flag). -/
def startSession (fa : Option Nat) (bodyRaises : Bool) (d peer : DRBD) : St × Bool :=
  let s := startAcquire fa d peer ⟨0, [], false⟩
  if s.failed then (s, true) else (stopRun d s, bodyRaises)

/-- The forward command sequence of a successful acquisition, in order. -/
def forwardEvents (d peer : DRBD) : List Event :=
  [evR d (lvcreateCmd d), evR d (ddCmd d), evR d (dumpCmd d), evR d (createShimCmd d),
   ⟨d.hv.host, Act.runSilent (statCmd d)⟩, ⟨peer.hv.host, Act.runSilent (statCmd peer)⟩,
   ⟨d.hv.host, Act.put (resPath d) (configContent d peer) "0640"⟩,
   evR d (lvsCmd d), evR d (suspendDmCmd d), evR d (createMdCmd d), evR d (upCmd d)] ++
  (if d.masterRole then [evR d (overwriteCmd d)]
   else [evR d (waitConnectCmd d), evR d (primaryCmd d)]) ++
  [evR d (loadDrbdCmd d), evR d (resumeCmd d)]

/-- Number of forward commands of an acquisition (role-dependent). -/
def forwardCount (d : DRBD) : Nat :=
  if d.masterRole then 14 else 15

/-- The rollback commands the source issues when forward command `n`
raises: the inverses of the completed scoped acquisitions in LIFO order. -/
def inverseEvents (d : DRBD) (n : Nat) : List Event :=
  if n = 0 then []
  else if n ≤ 3 then [evR d (lvremoveCmd d)]
  else if n ≤ 6 then [evR d (removeShimCmd d), evR d (lvremoveCmd d)]
  else if n ≤ 8 then
    [evR d (rmResCmd d), evR d (removeShimCmd d), evR d (lvremoveCmd d)]
  else if n ≤ (if d.masterRole then 12 else 13) then
    [⟨d.hv.host, Act.runWarn (downCmd d)⟩, evR d (resumeCmd d), evR d (rmResCmd d),
     evR d (removeShimCmd d), evR d (lvremoveCmd d)]
  else
    [evR d (loadOrigCmd d), evR d (resumeCmd d), ⟨d.hv.host, Act.runWarn (downCmd d)⟩,
     evR d (resumeCmd d), evR d (rmResCmd d), evR d (removeShimCmd d),
     evR d (lvremoveCmd d)]

/-- The tear-down command sequence of `stop()`. -/
def stopEvents (d : DRBD) : List Event :=
  (if !d.masterRole && d.hv.vmDefined && d.hv.vmRunning
   then [⟨d.hv.host, Act.suspendVM d.vmName⟩] else []) ++
  [evR d (loadOrigCmd d), evR d (resumeCmd d), evR d (downCmd d)] ++
  (if !d.masterRole && d.hv.vmDefined && d.hv.vmRunning
   then [⟨d.hv.host, Act.resumeVM d.vmName⟩] else []) ++
  [evR d (removeShimCmd d), evR d (lvremoveCmd d), evR d (rmResCmd d)]

/-- Query commands of the acquisition that read state without mutating
it: the `silent=True` `stat` minor lookups and the `lvs` size lookup
(every `lvs` invocation of the engine starts with this literal). -/
def isQueryEvent (e : Event) : Bool :=
  match e.act with
  | Act.runSilent _ => true
  | Act.run c => c.data.take 4 == "lvs ".data
  | _ => false

/-- Resource quad of one DRBD session on its hypervisor: metadata LV,
device-mapper shim, resource file, table dump file. -/
structure Resources where
  metaLV : Bool
  shim : Bool
  resFile : Bool
  tableFile : Bool
deriving DecidableEq, Repr

/-- Effect of the run commands of endpoint `d` on its resource quad. -/
def applyRun (d : DRBD) (r : Resources) (c : String) : Resources :=
  if c = lvcreateCmd d then { r with metaLV := true }
  else if c = lvremoveCmd d then { r with metaLV := false }
  else if c = dumpCmd d then { r with tableFile := true }
  else if c = createShimCmd d then { r with shim := true }
  else if c = removeShimCmd d then { r with shim := false }
  else if c = rmResCmd d then { r with resFile := false }
  else r

/-- Effect of one event on the resource quad of endpoint `d`; events on
other hosts, queries and VM lifecycle actions leave it unchanged. -/
def applyEvent (d : DRBD) (r : Resources) (e : Event) : Resources :=
  if e.host = d.hv.host then
    match e.act with
    | Act.run c => applyRun d r c
    | Act.put p _ _ => if p = resPath d then { r with resFile := true } else r
    | _ => r
  else r

/-- Resource quad after a trace of events. -/
def runEvents (d : DRBD) (r : Resources) (es : List Event) : Resources :=
  es.foldl (applyEvent d) r

/-- Pattern `'{}: cs:'.format(minor)` of `wait_for_sync` (drbd.py:282). -/
def statusPattern (minor : Nat) : String :=
  toString minor ++ ": cs:"

/-- Substring test on character lists: the pattern occurs at some
position. -/
def hasSubstring (pat : List Char) : List Char → Bool
  | [] => pat.isEmpty
  | c :: rest => pat.isPrefixOf (c :: rest) || hasSubstring pat rest

/-- Python substring containment `pat in s`. -/
def strContains (s pat : String) : Bool :=
  hasSubstring pat.data s.data

/-- The `for line in lines:` scan of `wait_for_sync` (drbd.py:280-282):
first line of the file that CONTAINS the status pattern, together with
the lines remaining in the iterator after it. -/
def findStatus (minor : Nat) : List String → Option (String × List String)
  | [] => none
  | l :: rest =>
    if strContains l (statusPattern minor) then some (l, rest)
    else findStatus minor rest

/-- One iteration of the `while show_progress:` loop of `wait_for_sync`
(drbd.py:278-305) over one snapshot of `/proc/drbd`: returns the
`show_progress` flag after the iteration, the updated
`progressbar_found` counter and the progress-bar lines logged.  The two
`next(lines)` calls step the iterator to the line two below the status
line; `StopIteration` bumps the counter and gives up on the display
after the fifth miss. -/
def pollStep (minor : Nat) (fileLines : List String) (pb : Nat) :
    Bool × Nat × List String :=
  match findStatus minor fileLines with
  | none => (false, pb, [])
  | some (line, rest) =>
    let sp := !(strContains line "ds:UpToDate/UpToDate")
    match rest with
    | _ :: l2 :: _ => (sp, pb, [l2])
    | _ =>
      let pb2 := pb + 1
      if pb2 < 5 then (sp, pb2, [])
      else (false, pb2, [])

/-- Observable actions of `wait_for_sync`. -/
inductive SyncEvent where
  | readProc
  | logLine (s : String)
  | sleepSec
  | waitSync (minor : Nat)
deriving DecidableEq, Repr

/-- `wait_for_sync` (drbd.py:274-309) driven by a list of successive
`/proc/drbd` snapshots (one per poll).  Each poll reads the file, logs
the progress line if found and sleeps one second; when the loop exits,
the authoritative `drbdsetup wait-sync` gate runs.  `none` means the
supplied snapshots were exhausted with the loop still running. -/
def syncRun (minor : Nat) : List (List String) → Nat → Option (List SyncEvent)
  | [], _ => none
  | snap :: rest, pb =>
    let (sp, pb2, logs) := pollStep minor snap pb
    let evs := SyncEvent.readProc :: (logs.map SyncEvent.logLine ++ [SyncEvent.sleepSec])
    if sp then (syncRun minor rest pb2).map (fun tr => evs ++ tr)
    else some (evs ++ [SyncEvent.waitSync minor])

/-- Modelled from the spec: locate the line *beginning with* the pattern
`'{dev_minor}: cs:'` — the reading of the sentence "locate the line
beginning with `{dev_minor}: cs:`", used to compare against the source's
substring matching. -/
def findStatusStartingWith (minor : Nat) : List String → Option String
  | [] => none
  | l :: rest =>
    if (statusPattern minor).data.isPrefixOf l.data then some l
    else findStatusStartingWith minor rest

/-- `sync_block_size` (drbd.py:14-31): when the VM runs, query the three
block sizes and set the VM's vda block size to their minimum; otherwise
do nothing.  The returned value is the argument passed to
`vm.set_block_size('vda', ...)`, `none` when no call is made. -/
def sync_block_size (running : Bool) (vmBS srcBS dstBS : Nat) : Option Nat :=
  if running then some (min vmBS (min srcBS dstBS)) else none

/-- Size argument of `mem_set`/`disk_set` after `parse_size`: a leading
`+`/`-` requests a relative change (commands.py:49-54, 87-90). -/
inductive SizeArg where
  | plus (n : Int)
  | minus (n : Int)
  | abs (n : Int)
deriving DecidableEq, Repr

/-- Mutating actions of the resize/lifecycle commands. -/
inductive CmdEffect where
  | shutdown
  | setMemory (n : Int)
  | startVM
  | lvresize (gib : Int)
  | blockresize (gib : Int)
  | growfs
  | commitInventory
deriving DecidableEq, Repr

/-- Outcome of a command: normal completion, the benign-no-op `Warning`,
`InvalidStateError` from `_check_defined`, or `NotImplementedError`. -/
inductive CmdResult where
  | ok
  | warning
  | invalidState
  | notImplemented
deriving DecidableEq, Repr

/-- `mem_set` (commands.py:37-70): resolve the requested size against the
current inventory memory, raise `Warning` when they are equal, otherwise
shut down / resize / start as the offline flag and run state demand. -/
def mem_set (defined running : Bool) (current : Int) (size : SizeArg)
    (offline : Bool) : CmdResult × List CmdEffect :=
  if !defined then (CmdResult.invalidState, [])
  else
    let newMemory :=
      match size with
      | SizeArg.plus n => current + n
      | SizeArg.minus n => current - n
      | SizeArg.abs n => n
    if newMemory = current then (CmdResult.warning, [])
    else
      let offline2 := offline && running
      if offline2 then
        (CmdResult.ok, [CmdEffect.shutdown, CmdEffect.setMemory newMemory,
          CmdEffect.startVM])
      else (CmdResult.ok, [CmdEffect.setMemory newMemory])

/-- `disk_set` (commands.py:73-110): a `-` prefix or any shrink raises
`NotImplementedError`, an unchanged size raises `Warning`, otherwise the
LV, the libvirt block device and the filesystem grow and the inventory is
committed. -/
def disk_set (defined : Bool) (current : Int) (size : SizeArg) :
    CmdResult × List CmdEffect :=
  if !defined then (CmdResult.invalidState, [])
  else
    match size with
    | SizeArg.minus _ => (CmdResult.notImplemented, [])
    | SizeArg.plus n =>
      let newSize := current + n
      if newSize < current then (CmdResult.notImplemented, [])
      else if newSize = current then (CmdResult.warning, [])
      else (CmdResult.ok, [CmdEffect.lvresize newSize, CmdEffect.blockresize newSize,
        CmdEffect.growfs, CmdEffect.commitInventory])
    | SizeArg.abs n =>
      let newSize := n
      if newSize < current then (CmdResult.notImplemented, [])
      else if newSize = current then (CmdResult.warning, [])
      else (CmdResult.ok, [CmdEffect.lvresize newSize, CmdEffect.blockresize newSize,
        CmdEffect.growfs, CmdEffect.commitInventory])

/-- `vm_start` (commands.py:113-121): an already-running VM is logged and
the command returns without side effect. -/
def vm_start (defined running : Bool) : CmdResult × List CmdEffect :=
  if !defined then (CmdResult.invalidState, [])
  else if running then (CmdResult.ok, [])
  else (CmdResult.ok, [CmdEffect.startVM])

/-- One inventory record of servertype vm as the balancing cache sees it.
The numeric attribute is modelled over ℚ; the Python float arithmetic of
`get_disk_free` is exact on the integral GiB values involved. -/
structure InvVM where
  xen_host : String
  disk_size_gib : ℚ
deriving DecidableEq

/-- Which backend a `get_disk_free` call touches. -/
inductive BalanceCall where
  | cacheQuery
  | libvirtQuery
deriving DecidableEq, Repr

/-- `Hypervisor.get_disk_free` (balance/models.py:109-136): the fast path
subtracts the cached VM disk totals and a fixed reservation of 16 + 10
GiB from the hypervisor's own `disk_size_gib` and scales to MiB, touching
only the serveradmin cache; the slow path asks the live hypervisor. -/
def get_disk_free (hostname : String) (hostDiskGib : ℚ) (inv : List InvVM)
    (liveFreeGib : ℚ) (fast : Bool) : ℚ × List BalanceCall :=
  if fast then
    let reserved : ℚ := 16 + 10
    let vms := ((inv.filter (fun v => v.xen_host == hostname)).map
      (fun v => v.disk_size_gib)).sum
    ((hostDiskGib - vms - reserved) * 1024, [BalanceCall.cacheQuery])
  else (liveFreeGib * 1024, [BalanceCall.libvirtQuery])

/-- Join lines with newline separators (no trailing newline). -/
def joinLines : List String → String
  | [] => ""
  | [l] => l
  | l :: rest => l ++ "\n" ++ joinLines rest

/-- Modelled from the spec: one on-host block of the resource-file
stanza of spec section 6, ports being 8000 plus the device minor. -/
def specHostBlock (d : DRBD) : String :=
  joinLines [
    "    on " ++ d.hv.host ++ " \x7b",
    "        address   " ++ d.hv.ip ++ ":" ++ toString (8000 + d.hv.minorEnv) ++ ";",
    "        device    /dev/drbd" ++ toString d.hv.minorEnv ++ ";",
    "        disk      /dev/mapper/" ++ d.lvName ++ "_orig;",
    "        meta-disk /dev/" ++ d.vgName ++ "/" ++ d.metaDisk ++ ";",
    "    \x7d"]

/-- Modelled from the spec: the bit-exact resource-file stanza of spec
section 6, with a hook for extra net-section lines, assembled line by
line. -/
def specResourceFile (extraNetLines : List String) (d peer : DRBD) : String :=
  joinLines ([
    "resource " ++ d.vmName ++ " \x7b",
    "    net \x7b",
    "        protocol C;",
    "        max-buffers 24k;"] ++ extraNetLines ++ [
    "        allow-two-primaries;",
    "    \x7d",
    "    disk \x7b",
    "         c-max-rate 750M;",
    "         resync-rate 750M;",
    "    \x7d",
    specHostBlock d,
    specHostBlock peer,
    "\x7d"]) ++ "\n"

/-- Modelled from the spec: the stanza exactly as printed in the spec. -/
def specStanza (d peer : DRBD) : String :=
  specResourceFile [] d peer

/-- The spec stanza amended with the two commented-out buffer-size lines
the source actually writes. -/
def specStanzaWithBufLines (d peer : DRBD) : String :=
  specResourceFile ["#        sndbuf-size 2048k;", "#        rcvbuf-size 2048k;"] d peer

/-- Concrete endpoint environment used by witnesses: the source side. -/
def cHV1 : HV :=
  ⟨"hv1.example.com", "10.0.0.1", 3, 1048576, true, true⟩

/-- Concrete endpoint environment used by witnesses: the target side. -/
def cHV2 : HV :=
  ⟨"hv2.example.com", "10.0.0.2", 5, 1048576, false, false⟩

/-- Concrete VM data used by witnesses. -/
def cVM : VMd :=
  ⟨"vm1.example.com", "vm_10001", "/dev/xen-data/vm1.example.com"⟩

/-- Concrete primary endpoint used by witnesses. -/
def cDP : DRBD :=
  DRBD.init cHV1 cVM true

/-- Concrete secondary endpoint used by witnesses. -/
def cDS : DRBD :=
  DRBD.init cHV2 cVM false

@[simp] lemma step_miss (fa : Option Nat) (e : Event) (c : Nat) (t : List Event)
    (h : ¬ fa = some c) : step fa e ⟨c, t, false⟩ = ⟨c + 1, t ++ [e], false⟩ := by
  simp [step, h]

@[simp] lemma step_hit (e : Event) (c : Nat) (t : List Event) :
    step (some c) e ⟨c, t, false⟩ = ⟨c + 1, t, true⟩ := by
  simp [step]

@[simp] lemma step_dead (fa : Option Nat) (e : Event) (c : Nat) (t : List Event) :
    step fa e ⟨c, t, true⟩ = ⟨c, t, true⟩ := by
  simp [step]

@[simp] lemma rollback_live (inv : List Event) (c : Nat) (t : List Event) :
    rollback inv true ⟨c, t, true⟩ = ⟨c, t ++ inv, true⟩ := by
  simp [rollback]

@[simp] lemma rollback_ok (inv : List Event) (b : Bool) (c : Nat) (t : List Event) :
    rollback inv b ⟨c, t, false⟩ = ⟨c, t, false⟩ := by
  simp [rollback]

@[simp] lemma rollback_dead (inv : List Event) (c : Nat) (t : List Event) :
    rollback inv false ⟨c, t, true⟩ = ⟨c, t, true⟩ := by
  simp [rollback]

@[simp] lemma emit_eq (e : Event) (c : Nat) (t : List Event) (b : Bool) :
    emit e ⟨c, t, b⟩ = ⟨c, t ++ [e], b⟩ := rfl

lemma startAcquire_fail (d peer : DRBD) (n : Nat) (h : n < forwardCount d) :
    startAcquire (some n) d peer ⟨0, [], false⟩ =
      { count := n + 1, trace := (forwardEvents d peer).take n ++ inverseEvents d n,
        failed := true } := by
  obtain ⟨hv, mr, vg, lv, vm, meta, tf⟩ := d
  cases mr
  · replace h : n < 15 := by simpa [forwardCount] using h
    interval_cases n <;>
      simp [startAcquire, forwardEvents, inverseEvents, evR]
  · replace h : n < 14 := by simpa [forwardCount] using h
    interval_cases n <;>
      simp [startAcquire, forwardEvents, inverseEvents, evR]

lemma startAcquire_ok (d peer : DRBD) :
    startAcquire none d peer ⟨0, [], false⟩ =
      { count := forwardCount d, trace := forwardEvents d peer, failed := false } := by
  obtain ⟨hv, mr, vg, lv, vm, meta, tf⟩ := d
  cases mr <;> simp [startAcquire, forwardEvents, forwardCount, evR]

lemma stopRun_eq (d : DRBD) (c : Nat) (t : List Event) (b : Bool) :
    stopRun d ⟨c, t, b⟩ = ⟨c, t ++ stopEvents d, b⟩ := by
  cases hm : d.masterRole <;> cases hd : d.hv.vmDefined <;> cases hr : d.hv.vmRunning <;>
    simp [stopRun, stopEvents, hm, hd, hr]

lemma startSession_ok (d peer : DRBD) (b : Bool) :
    startSession none b d peer =
      ({ count := forwardCount d, trace := forwardEvents d peer ++ stopEvents d,
         failed := false }, b) := by
  simp [startSession, startAcquire_ok, stopRun_eq]

/-- C1: for every DRBD session, an exception raised at any forward step of
`start` triggers exactly the inverses of the previously completed scoped
steps, in reverse (LIFO) order, before the exception propagates — the
`lvremove` of the meta LV, the `dmsetup remove` of the shim, the `rm` of
the resource file, the warn-only `drbdadm down` with the rollback resume,
and (after a completed table load) the reload of the original table —
and after a successful start, `stop()` runs on every exit from the scope,
normal or exceptional. -/
theorem DRBD_start_unwinds_lifo_and_always_stops (d peer : DRBD) :
    (∀ n : Nat, n < forwardCount d →
      startAcquire (some n) d peer ⟨0, [], false⟩ =
        { count := n + 1, trace := (forwardEvents d peer).take n ++ inverseEvents d n,
          failed := true }) ∧
    (∀ b : Bool, startSession none b d peer =
      ({ count := forwardCount d, trace := forwardEvents d peer ++ stopEvents d,
         failed := false }, b)) :=
  ⟨fun n h => startAcquire_fail d peer n h, fun b => startSession_ok d peer b⟩

/-- Witness for C1 at a concrete session: failure of forward step 9
(`drbdadm create-md`) unwinds down/resume, resource file, shim and meta
LV in LIFO order. -/
theorem DRBD_start_unwinds_witness :
    startAcquire (some 9) cDP cDS ⟨0, [], false⟩ =
      { count := 10, trace := (forwardEvents cDP cDS).take 9 ++ inverseEvents cDP 9,
        failed := true } :=
  (DRBD_start_unwinds_lifo_and_always_stops cDP cDS).1 9 (by decide)

@[simp] lemma isQuery_runSilent (h : String) (c : String) :
    isQueryEvent ⟨h, Act.runSilent c⟩ = true := rfl

@[simp] lemma isQuery_put (h p ct m : String) :
    isQueryEvent ⟨h, Act.put p ct m⟩ = false := rfl

@[simp] lemma isQuery_lvs (d : DRBD) : isQueryEvent (evR d (lvsCmd d)) = true := rfl

@[simp] lemma isQuery_lvcreate (d : DRBD) :
    isQueryEvent (evR d (lvcreateCmd d)) = false := rfl

@[simp] lemma isQuery_dd (d : DRBD) : isQueryEvent (evR d (ddCmd d)) = false := rfl

@[simp] lemma isQuery_dump (d : DRBD) : isQueryEvent (evR d (dumpCmd d)) = false := rfl

@[simp] lemma isQuery_createShim (d : DRBD) :
    isQueryEvent (evR d (createShimCmd d)) = false := rfl

@[simp] lemma isQuery_suspendDm (d : DRBD) :
    isQueryEvent (evR d (suspendDmCmd d)) = false := rfl

@[simp] lemma isQuery_createMd (d : DRBD) :
    isQueryEvent (evR d (createMdCmd d)) = false := rfl

@[simp] lemma isQuery_up (d : DRBD) : isQueryEvent (evR d (upCmd d)) = false := rfl

@[simp] lemma isQuery_overwrite (d : DRBD) :
    isQueryEvent (evR d (overwriteCmd d)) = false := rfl

@[simp] lemma isQuery_waitConnect (d : DRBD) :
    isQueryEvent (evR d (waitConnectCmd d)) = false := rfl

@[simp] lemma isQuery_primary (d : DRBD) :
    isQueryEvent (evR d (primaryCmd d)) = false := rfl

@[simp] lemma isQuery_loadDrbd (d : DRBD) :
    isQueryEvent (evR d (loadDrbdCmd d)) = false := rfl

@[simp] lemma isQuery_resume (d : DRBD) :
    isQueryEvent (evR d (resumeCmd d)) = false := rfl

/-- C3: on a successful session start the forward mutating remote
commands are issued in exactly the order M1 `lvcreate`, M2 `dd`,
L1 table dump, L2 shim create, C1 resource-file write, T1 suspend,
T2 `create-md` and `up`, T3, T4 load, T5 resume (the read-only `stat` and
`lvs` queries interleaved by the source are filtered out), and the two
roles differ only in T3: the primary overwrites the peer, the secondary
waits for connection and then promotes to primary. -/
theorem DRBD_start_forward_order (d peer : DRBD) :
    ((startAcquire none d peer ⟨0, [], false⟩).trace.filter
        (fun e => !isQueryEvent e)) =
      [evR d (lvcreateCmd d), evR d (ddCmd d), evR d (dumpCmd d),
       evR d (createShimCmd d),
       ⟨d.hv.host, Act.put (resPath d) (configContent d peer) "0640"⟩,
       evR d (suspendDmCmd d), evR d (createMdCmd d), evR d (upCmd d)] ++
      (if d.masterRole then [evR d (overwriteCmd d)]
       else [evR d (waitConnectCmd d), evR d (primaryCmd d)]) ++
      [evR d (loadDrbdCmd d), evR d (resumeCmd d)] := by
  rw [startAcquire_ok]
  cases hm : d.masterRole <;> simp [forwardEvents, hm]

/-- C4: `stop()` always issues the table reload from the dump file, then
`dmsetup resume`, then `drbdadm down`, in that order, before the final
cleanup removing the shim, the meta LV and the resource file; on the
secondary endpoint with the local VM defined and running the VM is
suspended before the reload and resumed after `drbdadm down`, and the
primary endpoint never suspends the VM. -/
theorem DRBD_stop_order (d : DRBD) :
    (stopRun d ⟨0, [], false⟩).trace =
      (if !d.masterRole && d.hv.vmDefined && d.hv.vmRunning
       then [⟨d.hv.host, Act.suspendVM d.vmName⟩] else []) ++
      [evR d (loadOrigCmd d), evR d (resumeCmd d), evR d (downCmd d)] ++
      (if !d.masterRole && d.hv.vmDefined && d.hv.vmRunning
       then [⟨d.hv.host, Act.resumeVM d.vmName⟩] else []) ++
      [evR d (removeShimCmd d), evR d (lvremoveCmd d), evR d (rmResCmd d)] ∧
    (d.masterRole = true →
      ⟨d.hv.host, Act.suspendVM d.vmName⟩ ∉ (stopRun d ⟨0, [], false⟩).trace) := by
  constructor
  · rw [stopRun_eq]
    simp [stopEvents]
  · intro hm
    rw [stopRun_eq]
    simp [stopEvents, hm, evR, Event.mk.injEq]

/-- Witness for C4 at the concrete primary endpoint: `stop()` never
suspends the VM there. -/
theorem DRBD_stop_order_witness :
    ⟨cDP.hv.host, Act.suspendVM cDP.vmName⟩ ∉ (stopRun cDP ⟨0, [], false⟩).trace :=
  (DRBD_stop_order cDP).2 (by decide)

lemma cmdNe (i : Nat) (c1 c2 : Char) (s t : String)
    (h1 : s.data.get? i = some c1) (h2 : t.data.get? i = some c2)
    (hne : c1 ≠ c2) : s ≠ t := by
  intro e
  rw [e, h2] at h1
  exact hne (Option.some.inj h1).symm

@[simp] lemma applyRun_lvcreate (d : DRBD) (r : Resources) :
    applyRun d r (lvcreateCmd d) = { r with metaLV := true } := by
  unfold applyRun
  rw [if_pos rfl]

@[simp] lemma applyRun_lvremove (d : DRBD) (r : Resources) :
    applyRun d r (lvremoveCmd d) = { r with metaLV := false } := by
  unfold applyRun
  rw [if_neg (cmdNe 2 'r' 'c' (lvremoveCmd d) (lvcreateCmd d) rfl rfl (by decide)),
      if_pos rfl]

@[simp] lemma applyRun_dump (d : DRBD) (r : Resources) :
    applyRun d r (dumpCmd d) = { r with tableFile := true } := by
  unfold applyRun
  rw [if_neg (cmdNe 0 'd' 'l' (dumpCmd d) (lvcreateCmd d) rfl rfl (by decide)),
      if_neg (cmdNe 0 'd' 'l' (dumpCmd d) (lvremoveCmd d) rfl rfl (by decide)),
      if_pos rfl]

@[simp] lemma applyRun_createShim (d : DRBD) (r : Resources) :
    applyRun d r (createShimCmd d) = { r with shim := true } := by
  unfold applyRun
  rw [if_neg (cmdNe 0 'd' 'l' (createShimCmd d) (lvcreateCmd d) rfl rfl (by decide)),
      if_neg (cmdNe 0 'd' 'l' (createShimCmd d) (lvremoveCmd d) rfl rfl (by decide)),
      if_neg (cmdNe 8 'c' 't' (createShimCmd d) (dumpCmd d) rfl rfl (by decide)),
      if_pos rfl]

@[simp] lemma applyRun_removeShim (d : DRBD) (r : Resources) :
    applyRun d r (removeShimCmd d) = { r with shim := false } := by
  unfold applyRun
  rw [if_neg (cmdNe 0 'd' 'l' (removeShimCmd d) (lvcreateCmd d) rfl rfl (by decide)),
      if_neg (cmdNe 0 'd' 'l' (removeShimCmd d) (lvremoveCmd d) rfl rfl (by decide)),
      if_neg (cmdNe 8 'r' 't' (removeShimCmd d) (dumpCmd d) rfl rfl (by decide)),
      if_neg (cmdNe 8 'r' 'c' (removeShimCmd d) (createShimCmd d) rfl rfl (by decide)),
      if_pos rfl]

@[simp] lemma applyRun_rmRes (d : DRBD) (r : Resources) :
    applyRun d r (rmResCmd d) = { r with resFile := false } := by
  unfold applyRun
  rw [if_neg (cmdNe 0 'r' 'l' (rmResCmd d) (lvcreateCmd d) rfl rfl (by decide)),
      if_neg (cmdNe 0 'r' 'l' (rmResCmd d) (lvremoveCmd d) rfl rfl (by decide)),
      if_neg (cmdNe 0 'r' 'd' (rmResCmd d) (dumpCmd d) rfl rfl (by decide)),
      if_neg (cmdNe 0 'r' 'd' (rmResCmd d) (createShimCmd d) rfl rfl (by decide)),
      if_neg (cmdNe 0 'r' 'd' (rmResCmd d) (removeShimCmd d) rfl rfl (by decide)),
      if_pos rfl]

@[simp] lemma applyRun_dd (d : DRBD) (r : Resources) :
    applyRun d r (ddCmd d) = r := by
  unfold applyRun
  rw [if_neg (cmdNe 0 'd' 'l' (ddCmd d) (lvcreateCmd d) rfl rfl (by decide)),
      if_neg (cmdNe 0 'd' 'l' (ddCmd d) (lvremoveCmd d) rfl rfl (by decide)),
      if_neg (cmdNe 1 'd' 'm' (ddCmd d) (dumpCmd d) rfl rfl (by decide)),
      if_neg (cmdNe 1 'd' 'm' (ddCmd d) (createShimCmd d) rfl rfl (by decide)),
      if_neg (cmdNe 1 'd' 'm' (ddCmd d) (removeShimCmd d) rfl rfl (by decide)),
      if_neg (cmdNe 0 'd' 'r' (ddCmd d) (rmResCmd d) rfl rfl (by decide))]

@[simp] lemma applyRun_lvs (d : DRBD) (r : Resources) :
    applyRun d r (lvsCmd d) = r := by
  unfold applyRun
  rw [if_neg (cmdNe 2 's' 'c' (lvsCmd d) (lvcreateCmd d) rfl rfl (by decide)),
      if_neg (cmdNe 2 's' 'r' (lvsCmd d) (lvremoveCmd d) rfl rfl (by decide)),
      if_neg (cmdNe 0 'l' 'd' (lvsCmd d) (dumpCmd d) rfl rfl (by decide)),
      if_neg (cmdNe 0 'l' 'd' (lvsCmd d) (createShimCmd d) rfl rfl (by decide)),
      if_neg (cmdNe 0 'l' 'd' (lvsCmd d) (removeShimCmd d) rfl rfl (by decide)),
      if_neg (cmdNe 0 'l' 'r' (lvsCmd d) (rmResCmd d) rfl rfl (by decide))]

@[simp] lemma applyRun_suspendDm (d : DRBD) (r : Resources) :
    applyRun d r (suspendDmCmd d) = r := by
  unfold applyRun
  rw [if_neg (cmdNe 0 'd' 'l' (suspendDmCmd d) (lvcreateCmd d) rfl rfl (by decide)),
      if_neg (cmdNe 0 'd' 'l' (suspendDmCmd d) (lvremoveCmd d) rfl rfl (by decide)),
      if_neg (cmdNe 8 's' 't' (suspendDmCmd d) (dumpCmd d) rfl rfl (by decide)),
      if_neg (cmdNe 8 's' 'c' (suspendDmCmd d) (createShimCmd d) rfl rfl (by decide)),
      if_neg (cmdNe 8 's' 'r' (suspendDmCmd d) (removeShimCmd d) rfl rfl (by decide)),
      if_neg (cmdNe 0 'd' 'r' (suspendDmCmd d) (rmResCmd d) rfl rfl (by decide))]

@[simp] lemma applyRun_createMd (d : DRBD) (r : Resources) :
    applyRun d r (createMdCmd d) = r := by
  unfold applyRun
  rw [if_neg (cmdNe 0 'd' 'l' (createMdCmd d) (lvcreateCmd d) rfl rfl (by decide)),
      if_neg (cmdNe 0 'd' 'l' (createMdCmd d) (lvremoveCmd d) rfl rfl (by decide)),
      if_neg (cmdNe 1 'r' 'm' (createMdCmd d) (dumpCmd d) rfl rfl (by decide)),
      if_neg (cmdNe 1 'r' 'm' (createMdCmd d) (createShimCmd d) rfl rfl (by decide)),
      if_neg (cmdNe 1 'r' 'm' (createMdCmd d) (removeShimCmd d) rfl rfl (by decide)),
      if_neg (cmdNe 0 'd' 'r' (createMdCmd d) (rmResCmd d) rfl rfl (by decide))]

@[simp] lemma applyRun_up (d : DRBD) (r : Resources) :
    applyRun d r (upCmd d) = r := by
  unfold applyRun
  rw [if_neg (cmdNe 0 'd' 'l' (upCmd d) (lvcreateCmd d) rfl rfl (by decide)),
      if_neg (cmdNe 0 'd' 'l' (upCmd d) (lvremoveCmd d) rfl rfl (by decide)),
      if_neg (cmdNe 1 'r' 'm' (upCmd d) (dumpCmd d) rfl rfl (by decide)),
      if_neg (cmdNe 1 'r' 'm' (upCmd d) (createShimCmd d) rfl rfl (by decide)),
      if_neg (cmdNe 1 'r' 'm' (upCmd d) (removeShimCmd d) rfl rfl (by decide)),
      if_neg (cmdNe 0 'd' 'r' (upCmd d) (rmResCmd d) rfl rfl (by decide))]

@[simp] lemma applyRun_overwrite (d : DRBD) (r : Resources) :
    applyRun d r (overwriteCmd d) = r := by
  unfold applyRun
  rw [if_neg (cmdNe 0 'd' 'l' (overwriteCmd d) (lvcreateCmd d) rfl rfl (by decide)),
      if_neg (cmdNe 0 'd' 'l' (overwriteCmd d) (lvremoveCmd d) rfl rfl (by decide)),
      if_neg (cmdNe 1 'r' 'm' (overwriteCmd d) (dumpCmd d) rfl rfl (by decide)),
      if_neg (cmdNe 1 'r' 'm' (overwriteCmd d) (createShimCmd d) rfl rfl (by decide)),
      if_neg (cmdNe 1 'r' 'm' (overwriteCmd d) (removeShimCmd d) rfl rfl (by decide)),
      if_neg (cmdNe 0 'd' 'r' (overwriteCmd d) (rmResCmd d) rfl rfl (by decide))]

@[simp] lemma applyRun_waitConnect (d : DRBD) (r : Resources) :
    applyRun d r (waitConnectCmd d) = r := by
  unfold applyRun
  rw [if_neg (cmdNe 0 'd' 'l' (waitConnectCmd d) (lvcreateCmd d) rfl rfl (by decide)),
      if_neg (cmdNe 0 'd' 'l' (waitConnectCmd d) (lvremoveCmd d) rfl rfl (by decide)),
      if_neg (cmdNe 1 'r' 'm' (waitConnectCmd d) (dumpCmd d) rfl rfl (by decide)),
      if_neg (cmdNe 1 'r' 'm' (waitConnectCmd d) (createShimCmd d) rfl rfl (by decide)),
      if_neg (cmdNe 1 'r' 'm' (waitConnectCmd d) (removeShimCmd d) rfl rfl (by decide)),
      if_neg (cmdNe 0 'd' 'r' (waitConnectCmd d) (rmResCmd d) rfl rfl (by decide))]

@[simp] lemma applyRun_primary (d : DRBD) (r : Resources) :
    applyRun d r (primaryCmd d) = r := by
  unfold applyRun
  rw [if_neg (cmdNe 0 'd' 'l' (primaryCmd d) (lvcreateCmd d) rfl rfl (by decide)),
      if_neg (cmdNe 0 'd' 'l' (primaryCmd d) (lvremoveCmd d) rfl rfl (by decide)),
      if_neg (cmdNe 1 'r' 'm' (primaryCmd d) (dumpCmd d) rfl rfl (by decide)),
      if_neg (cmdNe 1 'r' 'm' (primaryCmd d) (createShimCmd d) rfl rfl (by decide)),
      if_neg (cmdNe 1 'r' 'm' (primaryCmd d) (removeShimCmd d) rfl rfl (by decide)),
      if_neg (cmdNe 0 'd' 'r' (primaryCmd d) (rmResCmd d) rfl rfl (by decide))]

@[simp] lemma applyRun_down (d : DRBD) (r : Resources) :
    applyRun d r (downCmd d) = r := by
  unfold applyRun
  rw [if_neg (cmdNe 0 'd' 'l' (downCmd d) (lvcreateCmd d) rfl rfl (by decide)),
      if_neg (cmdNe 0 'd' 'l' (downCmd d) (lvremoveCmd d) rfl rfl (by decide)),
      if_neg (cmdNe 1 'r' 'm' (downCmd d) (dumpCmd d) rfl rfl (by decide)),
      if_neg (cmdNe 1 'r' 'm' (downCmd d) (createShimCmd d) rfl rfl (by decide)),
      if_neg (cmdNe 1 'r' 'm' (downCmd d) (removeShimCmd d) rfl rfl (by decide)),
      if_neg (cmdNe 0 'd' 'r' (downCmd d) (rmResCmd d) rfl rfl (by decide))]

@[simp] lemma applyRun_loadDrbd (d : DRBD) (r : Resources) :
    applyRun d r (loadDrbdCmd d) = r := by
  unfold applyRun
  rw [if_neg (cmdNe 0 'd' 'l' (loadDrbdCmd d) (lvcreateCmd d) rfl rfl (by decide)),
      if_neg (cmdNe 0 'd' 'l' (loadDrbdCmd d) (lvremoveCmd d) rfl rfl (by decide)),
      if_neg (cmdNe 8 'l' 't' (loadDrbdCmd d) (dumpCmd d) rfl rfl (by decide)),
      if_neg (cmdNe 8 'l' 'c' (loadDrbdCmd d) (createShimCmd d) rfl rfl (by decide)),
      if_neg (cmdNe 8 'l' 'r' (loadDrbdCmd d) (removeShimCmd d) rfl rfl (by decide)),
      if_neg (cmdNe 0 'd' 'r' (loadDrbdCmd d) (rmResCmd d) rfl rfl (by decide))]

@[simp] lemma applyRun_loadOrig (d : DRBD) (r : Resources) :
    applyRun d r (loadOrigCmd d) = r := by
  unfold applyRun
  rw [if_neg (cmdNe 0 'd' 'l' (loadOrigCmd d) (lvcreateCmd d) rfl rfl (by decide)),
      if_neg (cmdNe 0 'd' 'l' (loadOrigCmd d) (lvremoveCmd d) rfl rfl (by decide)),
      if_neg (cmdNe 8 'l' 't' (loadOrigCmd d) (dumpCmd d) rfl rfl (by decide)),
      if_neg (cmdNe 8 'l' 'c' (loadOrigCmd d) (createShimCmd d) rfl rfl (by decide)),
      if_neg (cmdNe 8 'l' 'r' (loadOrigCmd d) (removeShimCmd d) rfl rfl (by decide)),
      if_neg (cmdNe 0 'd' 'r' (loadOrigCmd d) (rmResCmd d) rfl rfl (by decide))]

@[simp] lemma applyRun_resume (d : DRBD) (r : Resources) :
    applyRun d r (resumeCmd d) = r := by
  unfold applyRun
  rw [if_neg (cmdNe 0 'd' 'l' (resumeCmd d) (lvcreateCmd d) rfl rfl (by decide)),
      if_neg (cmdNe 0 'd' 'l' (resumeCmd d) (lvremoveCmd d) rfl rfl (by decide)),
      if_neg (cmdNe 8 'r' 't' (resumeCmd d) (dumpCmd d) rfl rfl (by decide)),
      if_neg (cmdNe 8 'r' 'c' (resumeCmd d) (createShimCmd d) rfl rfl (by decide)),
      if_neg (cmdNe 10 's' 'm' (resumeCmd d) (removeShimCmd d) rfl rfl (by decide)),
      if_neg (cmdNe 0 'd' 'r' (resumeCmd d) (rmResCmd d) rfl rfl (by decide))]

@[simp] lemma applyEvent_run (d : DRBD) (r : Resources) (h c : String) :
    applyEvent d r ⟨h, Act.run c⟩ =
      if h = d.hv.host then applyRun d r c else r := rfl

@[simp] lemma applyEvent_runSilent (d : DRBD) (r : Resources) (h c : String) :
    applyEvent d r ⟨h, Act.runSilent c⟩ = r := by
  unfold applyEvent
  split <;> rfl

@[simp] lemma applyEvent_runWarn (d : DRBD) (r : Resources) (h c : String) :
    applyEvent d r ⟨h, Act.runWarn c⟩ = r := by
  unfold applyEvent
  split <;> rfl

@[simp] lemma applyEvent_suspendVM (d : DRBD) (r : Resources) (h v : String) :
    applyEvent d r ⟨h, Act.suspendVM v⟩ = r := by
  unfold applyEvent
  split <;> rfl

@[simp] lemma applyEvent_resumeVM (d : DRBD) (r : Resources) (h v : String) :
    applyEvent d r ⟨h, Act.resumeVM v⟩ = r := by
  unfold applyEvent
  split <;> rfl

@[simp] lemma applyEvent_put (d : DRBD) (r : Resources) (h p ct m : String) :
    applyEvent d r ⟨h, Act.put p ct m⟩ =
      if h = d.hv.host then
        (if p = resPath d then { r with resFile := true } else r)
      else r := rfl

/-- C2, counterexample: after a complete successful session (start scope
plus the `stop()` tear-down) on a concrete endpoint pair, the metadata
LV, the shim and the resource file are gone but the table dump file
`/tmp/{vg}_{lv}_table` is still present — `stop()` never removes it, so
the four-member quad is not absent as claimed. -/
theorem DRBD_teardown_quad_counterexample :
    (runEvents cDP ⟨false, false, false, false⟩
      (startSession none false cDP cDS).1.trace).tableFile = true ∧
    (runEvents cDP ⟨false, false, false, false⟩
      (startSession none false cDP cDS).1.trace).metaLV = false ∧
    (runEvents cDP ⟨false, false, false, false⟩
      (startSession none false cDP cDS).1.trace).shim = false ∧
    (runEvents cDP ⟨false, false, false, false⟩
      (startSession none false cDP cDS).1.trace).resFile = false := by
  decide

/-- C2, amended: after a clean tear-down (a `stop()` completing, or a
failure path whose inverses all succeed), the metadata LV, the
device-mapper shim and the resource file are absent, but the table dump
file is NOT removed: it remains present whenever the dump step had
completed (forward step index 3 or later reached). -/
theorem DRBD_teardown_resources (d peer : DRBD) :
    (∀ b : Bool,
      runEvents d ⟨false, false, false, false⟩ (startSession none b d peer).1.trace =
        ⟨false, false, false, true⟩) ∧
    (∀ n : Nat, n < forwardCount d →
      runEvents d ⟨false, false, false, false⟩
          (startAcquire (some n) d peer ⟨0, [], false⟩).trace =
        ⟨false, false, false, decide (3 ≤ n)⟩) := by
  constructor
  · intro b
    rw [startSession_ok]
    obtain ⟨hv, mr, vg, lv, vm, meta, tf⟩ := d
    cases mr <;> cases hd : hv.vmDefined <;> cases hr : hv.vmRunning <;>
      simp [forwardEvents, stopEvents, runEvents, evR, hd, hr]
  · intro n hn
    rw [startAcquire_fail d peer n hn]
    obtain ⟨hv, mr, vg, lv, vm, meta, tf⟩ := d
    cases mr
    · replace hn : n < 15 := by simpa [forwardCount] using hn
      interval_cases n <;> simp [forwardEvents, inverseEvents, runEvents, evR]
    · replace hn : n < 14 := by simpa [forwardCount] using hn
      interval_cases n <;> simp [forwardEvents, inverseEvents, runEvents, evR]

/-- Witness for the amended C2 at a concrete failure point: when forward
step 5 raises, the rollback leaves only the table dump file behind. -/
theorem DRBD_teardown_resources_witness :
    runEvents cDP ⟨false, false, false, false⟩
        (startAcquire (some 5) cDP cDS ⟨0, [], false⟩).trace =
      ⟨false, false, false, decide (3 ≤ 5)⟩ :=
  (DRBD_teardown_resources cDP cDS).2 5 (by decide)

lemma strData_append (s t : String) : (s ++ t).data = s.data ++ t.data := rfl

lemma stringDataEq {s t : String} (h : s.data = t.data) : s = t := by
  cases s
  cases t
  exact congrArg String.mk h

/-- C5, counterexample: on a concrete endpoint pair the uploaded
resource-file content is not the spec stanza — the source writes two
additional commented-out buffer-size lines inside the net section, so
the content is not "the stanza and nothing else". -/
theorem build_config_stanza_counterexample :
    configContent cDP cDS ≠ specStanza cDP cDS := by
  decide

/-- C5, amended: `build_config` uploads to `/etc/drbd.d/{vm}.res` with
mode 0640 a file whose content is exactly the spec stanza with two
commented-out lines `#        sndbuf-size 2048k;` and
`#        rcvbuf-size 2048k;` inserted between the max-buffers and
allow-two-primaries lines; ports are 8000 plus the device minor. -/
theorem build_config_content (d peer : DRBD) :
    configContent d peer = specStanzaWithBufLines d peer ∧
    ⟨d.hv.host, Act.put (resPath d) (configContent d peer) "0640"⟩ ∈
      forwardEvents d peer := by
  constructor
  · apply stringDataEq
    simp only [configContent, hostConfigStr, specStanzaWithBufLines, specResourceFile,
      specHostBlock, joinLines, List.cons_append, List.nil_append, strData_append,
      List.append_assoc]
  · simp [forwardEvents]


lemma findStatus_spec {m : Nat} {l : String} {rest : List String} :
    ∀ {ls : List String}, findStatus m ls = some (l, rest) →
      strContains l (statusPattern m) = true ∧
      ∃ pre, ls = pre ++ l :: rest ∧
        ∀ x ∈ pre, strContains x (statusPattern m) = false := by
  intro ls
  induction ls with
  | nil => intro h; simp [findStatus] at h
  | cons a as ih =>
    intro h
    rw [findStatus] at h
    by_cases hc : strContains a (statusPattern m) = true
    · rw [if_pos hc] at h
      simp only [Option.some.injEq, Prod.mk.injEq] at h
      obtain ⟨rfl, rfl⟩ := h
      exact ⟨hc, [], rfl, by simp⟩
    · rw [if_neg hc] at h
      obtain ⟨hl, pre, hpre, hall⟩ := ih h
      refine ⟨hl, a :: pre, by rw [hpre]; rfl, ?_⟩
      intro x hx
      rcases List.mem_cons.mp hx with rfl | hx2
      · exact Bool.eq_false_iff.mpr hc
      · exact hall x hx2

lemma pollStep_exit_uptodate {m : Nat} {ls : List String} {l : String}
    {rest : List String} (pb : Nat) (h : findStatus m ls = some (l, rest))
    (hu : strContains l "ds:UpToDate/UpToDate" = true) :
    (pollStep m ls pb).1 = false := by
  unfold pollStep
  rw [h]
  rcases rest with _ | ⟨x, _ | ⟨y, r⟩⟩ <;> simp [hu]

lemma pollStep_logs_two_below {m : Nat} {ls : List String} {l x l2 : String}
    {r : List String} (pb : Nat) (h : findStatus m ls = some (l, x :: l2 :: r)) :
    (pollStep m ls pb).2.2 = [l2] := by
  unfold pollStep
  rw [h]

lemma pollStep_gives_up {m : Nat} {ls : List String} {l : String}
    {rest : List String} (h : findStatus m ls = some (l, rest))
    (hshort : rest.length < 2) : (pollStep m ls 4).1 = false := by
  unfold pollStep
  rw [h]
  rcases rest with _ | ⟨x, _ | ⟨y, r⟩⟩
  · simp
  · simp
  · simp only [List.length_cons] at hshort
    omega

lemma syncRun_exits {m : Nat} :
    ∀ {snaps : List (List String)} {pb : Nat} {tr : List SyncEvent},
    syncRun m snaps pb = some tr →
      tr.getLast? = some (SyncEvent.waitSync m) ∧
      tr.count SyncEvent.sleepSec = tr.count SyncEvent.readProc := by
  intro snaps
  induction snaps with
  | nil => intro pb tr h; simp [syncRun] at h
  | cons snap rest ih =>
    intro pb tr h
    rw [syncRun] at h
    rcases hp : pollStep m snap pb with ⟨sp, pb2, logs⟩
    rw [hp] at h
    have h1 : (logs.map SyncEvent.logLine).count SyncEvent.sleepSec = 0 := by
      rw [List.count_eq_zero]
      intro hmem
      obtain ⟨s2, _, hs⟩ := List.mem_map.mp hmem
      exact SyncEvent.noConfusion hs
    have h2 : (logs.map SyncEvent.logLine).count SyncEvent.readProc = 0 := by
      rw [List.count_eq_zero]
      intro hmem
      obtain ⟨s2, _, hs⟩ := List.mem_map.mp hmem
      exact SyncEvent.noConfusion hs
    cases sp
    · simp only [Bool.false_eq_true, if_false] at h
      obtain rfl := (Option.some.inj h).symm
      constructor
      · exact List.getLast?_concat _
      · simp [List.count_append, List.count_cons, h1, h2]
    · simp only [if_pos] at h
      rw [Option.map_eq_some'] at h
      obtain ⟨tr2, htr2, rfl⟩ := h
      obtain ⟨hlast, hcnt⟩ := ih htr2
      constructor
      · have hne : tr2 ≠ [] := by
          intro e
          rw [e] at hlast
          simp at hlast
        rw [List.getLast?_append_of_ne_nil _ hne]
        exact hlast
      · simp [List.count_append, List.count_cons, h1, h2, hcnt]

lemma splitOnSlash_ne_nil (l : List Char) : splitOnSlash l ≠ [] := by
  cases l with
  | nil => simp [splitOnSlash]
  | cons c rest =>
    rw [splitOnSlash]
    rcases splitOnSlash rest with _ | ⟨h2, t⟩
    · simp
    · by_cases hc : c = '/' <;> simp [hc]

lemma splitOnSlash_cons_slash (b : List Char) :
    splitOnSlash ('/' :: b) = [] :: splitOnSlash b := by
  rw [splitOnSlash]
  rcases hsb : splitOnSlash b with _ | ⟨h2, t⟩
  · exact absurd hsb (splitOnSlash_ne_nil b)
  · simp

lemma splitOnSlash_no (a : List Char) (h : '/' ∉ a) : splitOnSlash a = [a] := by
  induction a with
  | nil => rfl
  | cons c rest ih =>
    have hc : ¬ c = '/' := fun e => h (by simp [e])
    have hr : '/' ∉ rest := fun hm => h (List.mem_cons_of_mem _ hm)
    rw [splitOnSlash, ih hr]
    simp [hc]

lemma splitOnSlash_append (a b : List Char) (h : '/' ∉ a) :
    splitOnSlash (a ++ '/' :: b) = a :: splitOnSlash b := by
  induction a with
  | nil => simpa using splitOnSlash_cons_slash b
  | cons c rest ih =>
    have hc : ¬ c = '/' := fun e => h (by simp [e])
    have hr : '/' ∉ rest := fun hm => h (List.mem_cons_of_mem _ hm)
    rw [List.cons_append, splitOnSlash, ih hr]
    simp [hc]

/-- C6, counterexample: the source locates the status line by substring
containment (the Python test `pattern in line`), not by "line beginning
with".  With minor 1 and a file whose first line is for minor 11, the
display loop exits (the poll returns show_progress false) although the
only line *beginning with* `1: cs:` does not contain
`ds:UpToDate/UpToDate`. -/
theorem wait_for_sync_startswith_counterexample :
    (pollStep 1 ["11: cs:A ds:UpToDate/UpToDate",
      "1: cs:SyncSource ds:Inconsistent/UpToDate", "junk"] 0).1 = false ∧
    findStatusStartingWith 1 ["11: cs:A ds:UpToDate/UpToDate",
      "1: cs:SyncSource ds:Inconsistent/UpToDate", "junk"] =
      some "1: cs:SyncSource ds:Inconsistent/UpToDate" ∧
    strContains "1: cs:SyncSource ds:Inconsistent/UpToDate"
      "ds:UpToDate/UpToDate" = false := by
  decide

/-- C6, amended: `wait_for_sync` polls one snapshot of `/proc/drbd` per
iteration with exactly one one-second sleep per poll, locates the first
line CONTAINING the pattern `{dev_minor}: cs:`, exits the display loop
when that line contains `ds:UpToDate/UpToDate`, logs the line two lines
below it as the progress bar, gives up on the display (while continuing)
on the fifth poll in which no progress bar appeared, and on every loop
exit finishes with `drbdsetup wait-sync` as the authoritative gate. -/
theorem wait_for_sync_behaviour :
    (∀ (m : Nat) (ls : List String) (pb : Nat) (l : String) (rest : List String),
      findStatus m ls = some (l, rest) →
      strContains l "ds:UpToDate/UpToDate" = true → (pollStep m ls pb).1 = false) ∧
    (∀ (m : Nat) (ls : List String) (pb : Nat) (l x l2 : String) (r : List String),
      findStatus m ls = some (l, x :: l2 :: r) → (pollStep m ls pb).2.2 = [l2]) ∧
    (∀ (m : Nat) (ls : List String) (l : String) (rest : List String),
      findStatus m ls = some (l, rest) → rest.length < 2 →
      (pollStep m ls 4).1 = false) ∧
    (∀ (m : Nat) (snaps : List (List String)) (pb : Nat) (tr : List SyncEvent),
      syncRun m snaps pb = some tr →
      tr.getLast? = some (SyncEvent.waitSync m) ∧
      tr.count SyncEvent.sleepSec = tr.count SyncEvent.readProc) ∧
    (∀ (m : Nat) (ls : List String) (l : String) (rest : List String),
      findStatus m ls = some (l, rest) →
      strContains l (statusPattern m) = true ∧
      ∃ pre, ls = pre ++ l :: rest ∧
        ∀ x ∈ pre, strContains x (statusPattern m) = false) :=
  ⟨fun _ _ pb _ _ h hu => pollStep_exit_uptodate pb h hu,
   fun _ _ pb _ _ _ _ h => pollStep_logs_two_below pb h,
   fun _ _ _ _ h hs => pollStep_gives_up h hs,
   fun _ _ _ _ h => syncRun_exits h,
   fun _ _ _ _ h => findStatus_spec h⟩

/-- Witness for the amended C6: a one-snapshot run on a concrete
`/proc/drbd` that is already UpToDate/UpToDate reads once, logs the
progress line, sleeps once and ends with the `drbdsetup wait-sync 0`
gate. -/
theorem wait_for_sync_behaviour_witness :
    [SyncEvent.readProc, SyncEvent.logLine "sync progress", SyncEvent.sleepSec,
      SyncEvent.waitSync 0].getLast? = some (SyncEvent.waitSync 0) ∧
    [SyncEvent.readProc, SyncEvent.logLine "sync progress", SyncEvent.sleepSec,
      SyncEvent.waitSync 0].count SyncEvent.sleepSec =
    [SyncEvent.readProc, SyncEvent.logLine "sync progress", SyncEvent.sleepSec,
      SyncEvent.waitSync 0].count SyncEvent.readProc :=
  wait_for_sync_behaviour.2.2.2.1 0
    [[" 0: cs:Connected ds:UpToDate/UpToDate", "filler", "sync progress"]] 0
    [SyncEvent.readProc, SyncEvent.logLine "sync progress", SyncEvent.sleepSec,
      SyncEvent.waitSync 0] (by decide)

/-- C7: `sync_block_size` performs no action when the VM is not running;
when it runs and the three block sizes pairwise differ, the vda block
size is set to the minimum of the three. -/
theorem sync_block_size_min (vmBS srcBS dstBS : Nat) :
    sync_block_size false vmBS srcBS dstBS = none ∧
    (vmBS ≠ srcBS → srcBS ≠ dstBS → vmBS ≠ dstBS →
      sync_block_size true vmBS srcBS dstBS =
        some (min vmBS (min srcBS dstBS))) := by
  constructor
  · rfl
  · intro _ _ _
    rfl

/-- Witness for C7 at concrete differing block sizes 4096, 512, 2048:
the VM block size is set to 512. -/
theorem sync_block_size_min_witness :
    sync_block_size true 4096 512 2048 = some (min 4096 (min 512 2048)) :=
  (sync_block_size_min 4096 512 2048).2 (by decide) (by decide) (by decide)

/-- C8: a DRBD endpoint built from a canonical backing path
`/dev/{vg}/{lv}` has `vg_name = vg`, and `lv_name` is the backing LV name
in the master role and `vm.uid_name` in the secondary role. -/
theorem DRBD_init_names (hv : HV) (vm : VMd) (vg lv : String) (role : Bool)
    (hvg : '/' ∉ vg.data) (hlv : '/' ∉ lv.data)
    (hpath : vm.srcLvPath = "/dev/" ++ vg ++ "/" ++ lv) :
    (DRBD.init hv vm role).vgName = vg ∧
    (DRBD.init hv vm role).lvName = (if role then lv else vm.uidName) := by
  have hform : ("/dev/" ++ vg ++ "/" ++ lv).data =
      '/' :: (['d', 'e', 'v'] ++ '/' :: (vg.data ++ '/' :: lv.data)) := by
    simp only [strData_append, List.append_assoc]
    rfl
  have hsplit : splitOnSlash vm.srcLvPath.data =
      [[], ['d', 'e', 'v'], vg.data, lv.data] := by
    rw [hpath, hform, splitOnSlash_cons_slash,
      splitOnSlash_append _ _ (by decide), splitOnSlash_append _ _ hvg,
      splitOnSlash_no _ hlv]
  constructor
  · simp only [DRBD.init]
    rw [hsplit]
    rfl
  · simp only [DRBD.init]
    rw [hsplit]
    cases role
    · rfl
    · rfl

/-- Witness for C8 on the concrete backing path
`/dev/xen-data/vm1.example.com`. -/
theorem DRBD_init_names_witness :
    (DRBD.init cHV1 cVM true).vgName = "xen-data" ∧
    (DRBD.init cHV1 cVM true).lvName =
      (if true then "vm1.example.com" else cVM.uidName) :=
  DRBD_init_names cHV1 cVM "xen-data" "vm1.example.com" true
    (by decide) (by decide) (by decide)

/-- C9: the benign no-ops raise `Warning` without mutating anything —
`mem_set` at the current memory size and `disk_set` at the current disk
size produce the warning outcome and an empty effect list, and `vm_start`
on a defined, already-running VM completes normally with no effect. -/
theorem benign_noops_warning (current : Int) (running offline : Bool) :
    mem_set true running current (SizeArg.abs current) offline =
      (CmdResult.warning, []) ∧
    disk_set true current (SizeArg.abs current) = (CmdResult.warning, []) ∧
    vm_start true true = (CmdResult.ok, []) := by
  refine ⟨by simp [mem_set], by simp [disk_set], rfl⟩

/-- C10: the fast path of `get_disk_free` returns exactly the
hypervisor's own disk size minus the cached disk totals of the inventory
VMs assigned to it minus the fixed 26 GiB reservation, scaled by 1024 to
MiB, and touches only the inventory cache, never the live hypervisor. -/
theorem get_disk_free_fast (hostname : String) (hostDiskGib : ℚ)
    (inv : List InvVM) (liveFreeGib : ℚ) :
    get_disk_free hostname hostDiskGib inv liveFreeGib true =
      ((hostDiskGib -
        ((inv.filter (fun v => v.xen_host == hostname)).map
          (fun v => v.disk_size_gib)).sum - 26) * 1024,
       [BalanceCall.cacheQuery]) := by
  simp only [get_disk_free, if_pos, Prod.mk.injEq]
  refine ⟨by norm_num, trivial⟩

end Igvm
